import Mathlib

/-!
Verification of the offline asset cache manager of the lobby repository.

The development shallowly embeds the service worker code of src/sw.js
(first variant, CACHE_NAME hk-dojo-v2026-02-08-02, whose line numbers the
claims cite), together with the install listener of src/unnamed/part_000
(which uses the atomic Cache.addAll API instead of the best-effort
precache). Host APIs (fetch, the URL parser, the cache storage) are
modelled explicitly: the network and the URL parser are oracles carried in
an environment record, and the cache storage is an association list from
store names to stores, a store being an association list from request URLs
to responses. Asynchronous handlers are embedded as state passing
functions: a handler takes the cache storage and returns the storage after
all of its tasks, background revalidation included, have settled, plus the
response it produced.
-/

namespace LobbySW

/-- HTTP response as the worker observes it: a status code and a body
identifier standing for the payload. Cloning a response before storing it
duplicates the body, so a stored response is interchangeable with the
returned one and the model keeps a single value. -/
structure Response where
  status : Nat
  body : String
deriving DecidableEq

/-- The ok flag of a response: status in the 2xx range. -/
def Response.ok (r : Response) : Bool :=
  decide (200 ≤ r.status ∧ r.status ≤ 299)

/-- A request as the fetch listener sees it: method, serialized URL and
navigation mode. -/
structure Request where
  method : String
  url : String
  mode : String
deriving DecidableEq

/-- Result of running a URL string through the WHATWG URL constructor:
the origin and the pathname, the only components the worker reads. -/
structure ParsedURL where
  origin : String
  pathname : String
deriving DecidableEq

/-- Host environment of the worker: its own origin (self.location.origin),
the URL constructor (new URL, yielding none when the constructor throws),
and the network: fetch of a URL either resolves with a response of any
status, or rejects with an error value. -/
structure SWEnv where
  selfOrigin : String
  parseURL : String → Option ParsedURL
  net : String → Except String Response

/-- A cache store: mapping from request URL to the most recently stored
response. -/
abbrev CacheStore := List (String × Response)

/-- The cache storage: mapping from store name to store, in creation
order. -/
abbrev Caches := List (String × CacheStore)

/-- Overwriting put of one entry into a store (Cache.put). -/
def storePut (s : CacheStore) (k : String) (r : Response) : CacheStore :=
  (k, r) :: s.filter (fun e => e.1 != k)

/-- Lookup of one entry in a store (Cache.match). -/
def storeMatch (s : CacheStore) (k : String) : Option Response :=
  (s.find? (fun e => e.1 == k)).map (fun e => e.2)

/-- Whether a store of the given name exists (caches.has). -/
def cachesHas (cs : Caches) (n : String) : Bool :=
  cs.any (fun kv => kv.1 == n)

/-- The store of the given name, empty when absent. -/
def cachesGet (cs : Caches) (n : String) : CacheStore :=
  ((cs.find? (fun kv => kv.1 == n)).map (fun kv => kv.2)).getD []

/-- caches.open: create the named store when it does not exist yet. -/
def cachesOpen (cs : Caches) (n : String) : Caches :=
  if cachesHas cs n then cs else cs ++ [(n, [])]

/-- Replace the named store wholesale. -/
def cachesSet (cs : Caches) (n : String) (st : CacheStore) : Caches :=
  cs.map (fun kv => if kv.1 == n then (kv.1, st) else kv)

/-- Put one entry into the named store. -/
def cachesSetPut (cs : Caches) (n k : String) (r : Response) : Caches :=
  cs.map (fun kv => if kv.1 == n then (kv.1, storePut kv.2 k r) else kv)

/-- caches.match: search every store in creation order for the URL. -/
def cachesMatch : Caches → String → Option Response
  | [], _ => none
  | kv :: rest, k =>
    match storeMatch kv.2 k with
    | some r => some r
    | none => cachesMatch rest k

/-- caches.delete: remove every store of the given name. -/
def cachesDelete (cs : Caches) (n : String) : Caches :=
  cs.filter (fun kv => kv.1 != n)

/-- caches.keys: the names of the stores. -/
def cachesKeys (cs : Caches) : List String :=
  cs.map (fun kv => kv.1)

/-! Constants of src/sw.js (first variant) and of src/unnamed/part_000. -/

/-- CACHE_NAME of src/sw.js line 9. -/
def CACHE_NAME : String := "hk-dojo-v2026-02-08-02"

/-- ASSETS of src/sw.js lines 13 to 26. -/
def ASSETS : List String :=
  ["./", "./index.html", "./style.css", "./home.js", "./home.css",
   "./manifest.json",
   "./icons/icon-192.png", "./icons/icon-512.png",
   "./icons/icon-maskable-192.png", "./icons/icon-maskable-512.png"]

/-- CACHE_NAME of src/unnamed/part_000 line 8. -/
def CACHE_NAME_P000 : String := "hk-dojo-v2026-02-08-01"

/-- ASSETS of src/unnamed/part_000 lines 11 to 27. -/
def ASSETS_P000 : List String :=
  ["./", "./index.html", "./style.css", "./home.css", "./home.js",
   "./manifest.json",
   "./assets/top.jpg",
   "./icons/icon-192.png", "./icons/icon-512.png",
   "./icons/icon-maskable-192.png", "./icons/icon-maskable-512.png"]

/-! Translation of the functions of src/sw.js, first variant. -/

/-- One locator task of precacheBestEffort (src/sw.js lines 33 to 43):
fetch the URL, skip it when the fetch rejects or the response is not ok,
otherwise put a clone under the locator. The surrounding try swallows
every failure. -/
def precacheStep (env : SWEnv) (c : CacheStore) (u : String) : CacheStore :=
  match env.net u with
  | Except.ok res => if res.ok then storePut c u res else c
  | Except.error _ => c

/-- precacheBestEffort (src/sw.js lines 31 to 45): run every locator task
and wait for all of them to settle. The tasks write to distinct keys per
locator (a duplicated locator writes the same oracle response), so the
concurrent join is embedded as a left fold. -/
def precacheBestEffort (env : SWEnv) (c : CacheStore) (urls : List String) :
    CacheStore :=
  urls.foldl (precacheStep env) c

/-- install listener of src/sw.js lines 47 to 55: open the current store,
precache best effort into it, then skipWaiting. No step can throw, so the
waitUntil promise always resolves: the result is always ok, and readiness
(skipWaiting) is always signaled. -/
def installSW (env : SWEnv) (cs : Caches) : Except String Caches :=
  Except.ok (cachesSet (cachesOpen cs CACHE_NAME) CACHE_NAME
    (precacheBestEffort env
      (cachesGet (cachesOpen cs CACHE_NAME) CACHE_NAME) ASSETS))

/-- activate listener step (src/sw.js line 61): for a store name, delete
it unless it is the current generation name. -/
def activateStep (acc : Caches) (k : String) : Caches :=
  if k == CACHE_NAME then acc else cachesDelete acc k

/-- activate listener of src/sw.js lines 57 to 65: enumerate the store
names and delete every store whose name is not CACHE_NAME. -/
def activateSW (cs : Caches) : Caches :=
  (cachesKeys cs).foldl activateStep cs

/-- isSameOrigin (src/sw.js lines 70 to 72): parse the URL and compare its
origin with the worker origin; a parse failure is caught and yields
false. -/
def isSameOrigin (env : SWEnv) (url : String) : Bool :=
  match env.parseURL url with
  | some u => u.origin == env.selfOrigin
  | none => false

/-- isCardsHubJsonOrCsv (src/sw.js lines 74 to 83): same origin, pathname
under /cards-hub/, and a .json or .csv pathname suffix; a parse failure is
caught and yields false. -/
def isCardsHubJsonOrCsv (env : SWEnv) (url : String) : Bool :=
  match env.parseURL url with
  | some u =>
    if !(u.origin == env.selfOrigin && u.pathname.startsWith ("/cards-hub/"))
    then false
    else u.pathname.endsWith (".json") || u.pathname.endsWith (".csv")
  | none => false

/-- cachePutSafe (src/sw.js lines 85 to 90): open the current store and
put the response clone under the request URL. Note that this variant does
not inspect the response status at all. The try around the put is modelled
as the put never failing. -/
def cachePutSafe (cs : Caches) (k : String) (r : Response) : Caches :=
  cachesSetPut (cachesOpen cs CACHE_NAME) CACHE_NAME k r

/-- networkFirst (src/sw.js lines 92 to 109): try a live no-store fetch;
on success store a clone for same-origin GET and return the live response;
on rejection return the exact-match cached response, else the cached
fallback URL when one was configured, else rethrow the original error. -/
def networkFirst (env : SWEnv) (cs : Caches) (req : Request)
    (fallbackUrl : Option String) : Caches × Except String Response :=
  match env.net req.url with
  | Except.ok res =>
    if req.method == "GET" && isSameOrigin env req.url then
      (cachePutSafe cs req.url res, Except.ok res)
    else (cs, Except.ok res)
  | Except.error e =>
    match cachesMatch cs req.url with
    | some cached => (cs, Except.ok cached)
    | none =>
      match fallbackUrl with
      | some fu =>
        match cachesMatch cs fu with
        | some fb => (cs, Except.ok fb)
        | none => (cs, Except.error e)
      | none => (cs, Except.error e)

/-- Outcome of the fetch listener for one event: either the listener
returned without calling respondWith (the request passes through to the
network natively, no substituted response, and in this embedding no cache
change), or it responded with the given fetch result. -/
inductive RouteResult where
  | passThrough : RouteResult
  | responded : Except String Response → RouteResult

/-- event.respondWith on the result of a strategy. -/
def respondWith (p : Caches × Except String Response) : Caches × RouteResult :=
  (p.1, RouteResult.responded p.2)

/-- fetch listener of src/sw.js lines 111 to 150: ignore non-GET; route
navigations network-first with the root page as fallback; route cards-hub
json and csv network-first without fallback; route other same-origin URLs
cache-first, answering a hit from the cache while a background fetch
revalidates the entry (its failure swallowed), and answering a miss by
fetching, storing and returning the live response; let everything else
pass through. The returned storage reflects the state after the background
revalidation registered with event.waitUntil has settled. -/
def handleFetch (env : SWEnv) (cs : Caches) (req : Request) :
    Caches × RouteResult :=
  if req.method != "GET" then (cs, RouteResult.passThrough)
  else if req.mode == "navigate" then
    respondWith (networkFirst env cs req (some ("./index.html")))
  else if isCardsHubJsonOrCsv env req.url then
    respondWith (networkFirst env cs req none)
  else if isSameOrigin env req.url then
    match cachesMatch cs req.url with
    | some cached =>
      match env.net req.url with
      | Except.ok res =>
        (cachePutSafe cs req.url res, RouteResult.responded (Except.ok cached))
      | Except.error _ => (cs, RouteResult.responded (Except.ok cached))
    | none =>
      match env.net req.url with
      | Except.ok res =>
        (cachePutSafe cs req.url res, RouteResult.responded (Except.ok res))
      | Except.error e => (cs, RouteResult.responded (Except.error e))
  else (cs, RouteResult.passThrough)

/-! Translation of the install listener of src/unnamed/part_000, which
uses Cache.addAll instead of the best-effort precache. -/

/-- Modelled from the platform semantics of the Cache.addAll API called by
the install listener of src/unnamed/part_000 line 33: addAll fetches every
URL and is atomic, rejecting the whole operation when any fetch rejects or
resolves with a response that is not ok, in which case nothing is stored;
when every fetch succeeds, every response is stored under its URL. -/
def cacheAddAll (env : SWEnv) (st : CacheStore) (urls : List String) :
    Except String CacheStore :=
  if urls.all (fun u =>
      match env.net u with
      | Except.ok r => r.ok
      | Except.error _ => false) then
    Except.ok (urls.foldl (fun s u =>
      match env.net u with
      | Except.ok r => storePut s u r
      | Except.error _ => s) st)
  else Except.error ("addAll: request failed")

/-- install listener of src/unnamed/part_000 lines 30 to 36: open the
store, addAll the manifest, then skipWaiting. When addAll rejects, the
waitUntil promise rejects: the install fails and readiness is never
signaled. -/
def installP000 (env : SWEnv) (cs : Caches) : Except String Caches :=
  match cacheAddAll env
      (cachesGet (cachesOpen cs CACHE_NAME_P000) CACHE_NAME_P000)
      ASSETS_P000 with
  | Except.ok st =>
    Except.ok (cachesSet (cachesOpen cs CACHE_NAME_P000) CACHE_NAME_P000 st)
  | Except.error e => Except.error e

/-- Whether the fetch of a URL fails for caching purposes: it rejects or
resolves with a response that is not ok. -/
def fetchFails (env : SWEnv) (u : String) : Bool :=
  match env.net u with
  | Except.ok r => !r.ok
  | Except.error _ => true

/-- Whether the fetch of a URL succeeds with an ok response. -/
def fetchOkAt (env : SWEnv) (u : String) : Bool :=
  !(fetchFails env u)

/-- Invariant of the storage: every entry of every store is keyed by a
same-origin URL. -/
def sameOriginCaches (env : SWEnv) (cs : Caches) : Prop :=
  ∀ kv ∈ cs, ∀ e ∈ kv.2, isSameOrigin env e.1 = true

/-! Concrete fixtures used by counterexamples and witnesses. -/

/-- Worker origin of the concrete scenarios. -/
def tOrigin : String := "https://hk.test"

/-- Same-origin static asset URL. -/
def uA : String := "https://hk.test/a.css"

/-- Same-origin root URL used for navigations. -/
def uNav : String := "https://hk.test/"

/-- Cross-origin URL. -/
def uX : String := "https://other.test/x.js"

/-- A string the URL constructor rejects. -/
def uBad : String := "::bad::"

/-- Concrete URL constructor oracle for the scenario URLs. -/
def tParse : String → Option ParsedURL := fun u =>
  if u = uA then some ⟨tOrigin, "/a.css"⟩
  else if u = uNav then some ⟨tOrigin, "/"⟩
  else if u = uX then some ⟨"https://other.test", "/x.js"⟩
  else none

/-- Error value of a rejected fetch in the scenarios. -/
def errDown : String := "net down"

/-- Concrete responses. -/
def rLive : Response := ⟨200, "live"⟩

/-- Cached concrete response. -/
def rCached : Response := ⟨200, "cached"⟩

/-- Revalidated concrete response. -/
def rNew : Response := ⟨200, "new"⟩

/-- Cached root page response. -/
def rIndex : Response := ⟨200, "index"⟩

/-- A not-found response. -/
def r404 : Response := ⟨404, "nf"⟩

/-- Environment whose network always resolves with rLive. -/
def envOk : SWEnv := ⟨tOrigin, tParse, fun _ => Except.ok rLive⟩

/-- Environment whose network always rejects. -/
def envDown : SWEnv := ⟨tOrigin, tParse, fun _ => Except.error errDown⟩

/-- Environment whose network always resolves with the 404 response. -/
def env404 : SWEnv := ⟨tOrigin, tParse, fun _ => Except.ok r404⟩

/-- Environment whose network always resolves with rNew. -/
def envNew : SWEnv := ⟨tOrigin, tParse, fun _ => Except.ok rNew⟩

/-- Network oracle failing exactly at the home.css locator. -/
def netMix : String → Except String Response := fun u =>
  if u = "./home.css" then Except.error errDown else Except.ok ⟨200, u⟩

/-- Environment for the precache scenario with one failing locator. -/
def envMix : SWEnv := ⟨tOrigin, tParse, netMix⟩

/-- Network oracle answering 404 exactly at the top image locator of
part_000 and an ok response everywhere else. -/
def netP000 : String → Except String Response := fun u =>
  if u = "./assets/top.jpg" then Except.ok r404 else Except.ok ⟨200, u⟩

/-- Environment for the part_000 install scenario. -/
def envP000 : SWEnv := ⟨tOrigin, tParse, netP000⟩

/-- Storage holding only the current store with the root page cached. -/
def csIdx : Caches := [(CACHE_NAME, [("./index.html", rIndex)])]

/-- Storage holding only the current store with uA cached. -/
def csA : Caches := [(CACHE_NAME, [(uA, rCached)])]

/-- Same-origin static GET request for uA. -/
def reqA : Request := ⟨"GET", uA, "no-cors"⟩

/-- Navigation GET request for the root. -/
def reqNav : Request := ⟨"GET", uNav, "navigate"⟩

/-- Cross-origin GET request. -/
def reqX : Request := ⟨"GET", uX, "no-cors"⟩

/-- Non-navigation GET request with an unparseable URL. -/
def reqBad : Request := ⟨"GET", uBad, "no-cors"⟩

/-- Navigation GET request with an unparseable URL. -/
def reqBadNav : Request := ⟨"GET", uBad, "navigate"⟩

/-- Storage holding only the current store with the root page cached under
the exact navigation URL. -/
def csNav : Caches := [(CACHE_NAME, [(uNav, rCached)])]

/-! Helper lemmas about stores and the cache storage. -/

theorem storeMatch_storePut_self (s : CacheStore) (k : String) (r : Response) :
    storeMatch (storePut s k r) k = some r := by
  simp [storeMatch, storePut]

theorem find?_key_filter_ne (s : CacheStore) (k k2 : String) (h : k2 ≠ k) :
    (s.filter (fun e => e.1 != k)).find? (fun e => e.1 == k2) =
      s.find? (fun e => e.1 == k2) := by
  have hkk : (k == k2) = false := beq_eq_false_iff_ne.2 fun hh => h hh.symm
  induction s with
  | nil => rfl
  | cons e rest ih =>
    by_cases he : e.1 = k
    · have hfe : (e.1 != k) = false := by simp [he]
      have hne : (e.1 == k2) = false := by
        rw [he]
        exact hkk
      simp [List.filter_cons, List.find?, hfe, hne, ih]
    · have hfe : (e.1 != k) = true := bne_iff_ne.2 he
      by_cases h2 : (e.1 == k2) = true
      · simp [List.filter_cons, List.find?, hfe, h2]
      · have h2f : (e.1 == k2) = false := by simpa using h2
        simp [List.filter_cons, List.find?, hfe, h2f, ih]

theorem storeMatch_storePut_ne (s : CacheStore) (k k2 : String) (r : Response)
    (h : k2 ≠ k) :
    storeMatch (storePut s k r) k2 = storeMatch s k2 := by
  have hk : (k == k2) = false := beq_eq_false_iff_ne.2 fun hh => h hh.symm
  simp [storeMatch, storePut, List.find?, hk, find?_key_filter_ne s k k2 h]

theorem cachesHas_open (cs : Caches) (n : String) :
    cachesHas (cachesOpen cs n) n = true := by
  by_cases h : cachesHas cs n
  · simp [cachesOpen, h]
  · simp only [cachesOpen, h, if_false, Bool.false_eq_true]
    simp [cachesHas, List.any_append]

theorem cachesGet_absent (cs : Caches) (n : String)
    (h : cachesHas cs n = false) : cachesGet cs n = [] := by
  have hf : cs.find? (fun kv => kv.1 == n) = none := by
    rw [List.find?_eq_none]
    intro kv hkv hb
    have : cachesHas cs n = true := by
      unfold cachesHas
      exact List.any_eq_true.2 ⟨kv, hkv, hb⟩
    simp [h] at this
  simp [cachesGet, hf]

theorem cachesGet_open_self (cs : Caches) (n : String) :
    cachesGet (cachesOpen cs n) n = cachesGet cs n := by
  by_cases h : cachesHas cs n
  · simp [cachesOpen, h]
  · have hb : cachesHas cs n = false := by simpa using h
    have hf : cs.find? (fun kv => kv.1 == n) = none := by
      rw [List.find?_eq_none]
      intro kv hkv hbk
      have : cachesHas cs n = true := by
        unfold cachesHas
        exact List.any_eq_true.2 ⟨kv, hkv, hbk⟩
      simp [hb] at this
    simp only [cachesOpen, hb, Bool.false_eq_true, if_false]
    simp [cachesGet, List.find?_append, hf]

theorem cachesGet_cons (kv : String × CacheStore) (rest : Caches) (n : String) :
    cachesGet (kv :: rest) n =
      if (kv.1 == n) = true then kv.2 else cachesGet rest n := by
  by_cases hb : (kv.1 == n) = true
  · rw [if_pos hb]
    simp [cachesGet, List.find?, hb]
  · have hbf : (kv.1 == n) = false := by simpa using hb
    rw [if_neg hb]
    simp [cachesGet, List.find?, hbf]

theorem cachesSetPut_cons (kv : String × CacheStore) (rest : Caches)
    (n k : String) (r : Response) :
    cachesSetPut (kv :: rest) n k r =
      (if kv.1 == n then (kv.1, storePut kv.2 k r) else kv) ::
        cachesSetPut rest n k r := rfl

theorem cachesGet_setPut (cs : Caches) (n k : String) (r : Response)
    (h : cachesHas cs n = true) :
    cachesGet (cachesSetPut cs n k r) n = storePut (cachesGet cs n) k r := by
  induction cs with
  | nil => simp [cachesHas] at h
  | cons kv rest ih =>
    by_cases hb : (kv.1 == n) = true
    · simp [cachesSetPut_cons, cachesGet_cons, hb]
    · have hbf : (kv.1 == n) = false := by simpa using hb
      have hrest : cachesHas rest n = true := by
        simpa [cachesHas, List.any_cons, hbf] using h
      simp [cachesSetPut_cons, cachesGet_cons, hbf, ih hrest]

theorem cachesGet_cachePutSafe (cs : Caches) (k : String) (r : Response) :
    cachesGet (cachePutSafe cs k r) CACHE_NAME =
      storePut (cachesGet cs CACHE_NAME) k r := by
  unfold cachePutSafe
  rw [cachesGet_setPut _ _ _ _ (cachesHas_open cs CACHE_NAME),
    cachesGet_open_self]

theorem cachesMatch_single (n : String) (s : CacheStore) (k : String) :
    cachesMatch [(n, s)] k = storeMatch s k := by
  cases h : storeMatch s k <;> simp [cachesMatch, h]

theorem cachePutSafe_single (s : CacheStore) (k : String) (r : Response) :
    cachePutSafe [(CACHE_NAME, s)] k r = [(CACHE_NAME, storePut s k r)] := by
  simp [cachePutSafe, cachesOpen, cachesHas, cachesSetPut]

/-! Helper lemmas reducing networkFirst on each branch of its source. -/

theorem nf_ok_put (env : SWEnv) (cs : Caches) (req : Request)
    (fb : Option String) (res : Response)
    (hn : env.net req.url = Except.ok res)
    (hg : (req.method == "GET" && isSameOrigin env req.url) = true) :
    networkFirst env cs req fb = (cachePutSafe cs req.url res, Except.ok res) := by
  simp [networkFirst, hn, hg]

theorem nf_ok_noput (env : SWEnv) (cs : Caches) (req : Request)
    (fb : Option String) (res : Response)
    (hn : env.net req.url = Except.ok res)
    (hg : (req.method == "GET" && isSameOrigin env req.url) = false) :
    networkFirst env cs req fb = (cs, Except.ok res) := by
  simp [networkFirst, hn, hg]

theorem nf_err_hit (env : SWEnv) (cs : Caches) (req : Request)
    (fb : Option String) (e : String) (c : Response)
    (hn : env.net req.url = Except.error e)
    (hc : cachesMatch cs req.url = some c) :
    networkFirst env cs req fb = (cs, Except.ok c) := by
  simp [networkFirst, hn, hc]

theorem nf_err_fb (env : SWEnv) (cs : Caches) (req : Request)
    (fu : String) (e : String) (fb : Response)
    (hn : env.net req.url = Except.error e)
    (hc : cachesMatch cs req.url = none)
    (hf : cachesMatch cs fu = some fb) :
    networkFirst env cs req (some fu) = (cs, Except.ok fb) := by
  simp [networkFirst, hn, hc, hf]

theorem nf_err_propagate (env : SWEnv) (cs : Caches) (req : Request)
    (fu : String) (e : String)
    (hn : env.net req.url = Except.error e)
    (hc : cachesMatch cs req.url = none)
    (hf : cachesMatch cs fu = none) :
    networkFirst env cs req (some fu) = (cs, Except.error e) := by
  simp [networkFirst, hn, hc, hf]

theorem nf_err_caches (env : SWEnv) (cs : Caches) (req : Request)
    (fb : Option String) (e : String)
    (hn : env.net req.url = Except.error e) :
    (networkFirst env cs req fb).1 = cs := by
  simp only [networkFirst, hn]
  rcases hc : cachesMatch cs req.url with _ | c
  · rcases fb with _ | fu
    · simp
    · rcases hf : cachesMatch cs fu with _ | f <;> simp [hf]
  · simp

/-! Helper lemmas reducing the fetch listener on each routing branch. -/

theorem hf_nav (env : SWEnv) (cs : Caches) (req : Request)
    (hm : req.method = "GET") (hnav : req.mode = "navigate") :
    handleFetch env cs req =
      respondWith (networkFirst env cs req (some ("./index.html"))) := by
  simp [handleFetch, hm, hnav]

theorem hf_hub (env : SWEnv) (cs : Caches) (req : Request)
    (hm : req.method = "GET") (hnav : (req.mode == "navigate") = false)
    (hhub : isCardsHubJsonOrCsv env req.url = true) :
    handleFetch env cs req = respondWith (networkFirst env cs req none) := by
  simp [handleFetch, hm, hnav, hhub]

theorem hf_hit_ok (env : SWEnv) (cs : Caches) (req : Request)
    (cached res : Response)
    (hm : req.method = "GET") (hnav : (req.mode == "navigate") = false)
    (hhub : isCardsHubJsonOrCsv env req.url = false)
    (hso : isSameOrigin env req.url = true)
    (hhit : cachesMatch cs req.url = some cached)
    (hn : env.net req.url = Except.ok res) :
    handleFetch env cs req =
      (cachePutSafe cs req.url res,
       RouteResult.responded (Except.ok cached)) := by
  simp [handleFetch, hm, hnav, hhub, hso, hhit, hn]

theorem hf_hit_err (env : SWEnv) (cs : Caches) (req : Request)
    (cached : Response) (e : String)
    (hm : req.method = "GET") (hnav : (req.mode == "navigate") = false)
    (hhub : isCardsHubJsonOrCsv env req.url = false)
    (hso : isSameOrigin env req.url = true)
    (hhit : cachesMatch cs req.url = some cached)
    (hn : env.net req.url = Except.error e) :
    handleFetch env cs req = (cs, RouteResult.responded (Except.ok cached)) := by
  simp [handleFetch, hm, hnav, hhub, hso, hhit, hn]

theorem hf_miss_ok (env : SWEnv) (cs : Caches) (req : Request) (res : Response)
    (hm : req.method = "GET") (hnav : (req.mode == "navigate") = false)
    (hhub : isCardsHubJsonOrCsv env req.url = false)
    (hso : isSameOrigin env req.url = true)
    (hmiss : cachesMatch cs req.url = none)
    (hn : env.net req.url = Except.ok res) :
    handleFetch env cs req =
      (cachePutSafe cs req.url res, RouteResult.responded (Except.ok res)) := by
  simp [handleFetch, hm, hnav, hhub, hso, hmiss, hn]

theorem hf_miss_err (env : SWEnv) (cs : Caches) (req : Request) (e : String)
    (hm : req.method = "GET") (hnav : (req.mode == "navigate") = false)
    (hhub : isCardsHubJsonOrCsv env req.url = false)
    (hso : isSameOrigin env req.url = true)
    (hmiss : cachesMatch cs req.url = none)
    (hn : env.net req.url = Except.error e) :
    handleFetch env cs req = (cs, RouteResult.responded (Except.error e)) := by
  simp [handleFetch, hm, hnav, hhub, hso, hmiss, hn]

theorem hf_pass (env : SWEnv) (cs : Caches) (req : Request)
    (hm : req.method = "GET") (hnav : (req.mode == "navigate") = false)
    (hhub : isCardsHubJsonOrCsv env req.url = false)
    (hso : isSameOrigin env req.url = false) :
    handleFetch env cs req = (cs, RouteResult.passThrough) := by
  simp [handleFetch, hm, hnav, hhub, hso]

/-! Characterization of the storage effect of one routing operation: the
storage is unchanged, or a single same-origin keyed put happened. -/

theorem networkFirst_caches (env : SWEnv) (cs : Caches) (req : Request)
    (fb : Option String) :
    (networkFirst env cs req fb).1 = cs ∨
      (isSameOrigin env req.url = true ∧
        ∃ res, (networkFirst env cs req fb).1 = cachePutSafe cs req.url res) := by
  cases hn : env.net req.url with
  | ok res =>
    cases hg : (req.method == "GET" && isSameOrigin env req.url) with
    | true =>
      right
      refine ⟨((Bool.and_eq_true _ _).mp hg).2, res, ?_⟩
      rw [nf_ok_put env cs req fb res hn hg]
    | false =>
      left
      rw [nf_ok_noput env cs req fb res hn hg]
  | error e =>
    left
    exact nf_err_caches env cs req fb e hn

theorem handleFetch_caches (env : SWEnv) (cs : Caches) (req : Request) :
    (handleFetch env cs req).1 = cs ∨
      (isSameOrigin env req.url = true ∧
        ∃ res, (handleFetch env cs req).1 = cachePutSafe cs req.url res) := by
  by_cases hm : req.method = "GET"
  · by_cases hnav : req.mode = "navigate"
    · rw [hf_nav env cs req hm hnav]
      exact networkFirst_caches env cs req (some ("./index.html"))
    · have hnavf : (req.mode == "navigate") = false :=
        beq_eq_false_iff_ne.2 hnav
      by_cases hhub : isCardsHubJsonOrCsv env req.url = true
      · rw [hf_hub env cs req hm hnavf hhub]
        exact networkFirst_caches env cs req none
      · have hhubf : isCardsHubJsonOrCsv env req.url = false := by
          simpa using hhub
        by_cases hso : isSameOrigin env req.url = true
        · rcases hhit : cachesMatch cs req.url with _ | cached
          · cases hn : env.net req.url with
            | ok res =>
              right
              refine ⟨hso, res, ?_⟩
              rw [hf_miss_ok env cs req res hm hnavf hhubf hso hhit hn]
            | error e =>
              left
              rw [hf_miss_err env cs req e hm hnavf hhubf hso hhit hn]
          · cases hn : env.net req.url with
            | ok res =>
              right
              refine ⟨hso, res, ?_⟩
              rw [hf_hit_ok env cs req cached res hm hnavf hhubf hso hhit hn]
            | error e =>
              left
              rw [hf_hit_err env cs req cached e hm hnavf hhubf hso hhit hn]
        · have hsof : isSameOrigin env req.url = false := by simpa using hso
          left
          rw [hf_pass env cs req hm hnavf hhubf hsof]
  · have hb : (req.method != "GET") = true := bne_iff_ne.2 hm
    left
    simp [handleFetch, hb]

/-! Membership lemmas feeding the same-origin storage invariant. -/

theorem mem_cachesOpen (cs : Caches) (n : String) (kv : String × CacheStore)
    (h : kv ∈ cachesOpen cs n) : kv ∈ cs ∨ kv = (n, ([] : CacheStore)) := by
  unfold cachesOpen at h
  by_cases hb : cachesHas cs n = true
  · rw [if_pos hb] at h
    exact Or.inl h
  · rw [if_neg hb] at h
    rcases List.mem_append.1 h with h1 | h1
    · exact Or.inl h1
    · exact Or.inr (List.mem_singleton.1 h1)

theorem mem_storePut (s : CacheStore) (k : String) (r : Response)
    (e : String × Response) (h : e ∈ storePut s k r) :
    e = (k, r) ∨ e ∈ s := by
  unfold storePut at h
  rcases List.mem_cons.1 h with h1 | h1
  · exact Or.inl h1
  · exact Or.inr (List.mem_of_mem_filter h1)

theorem cachePutSafe_preserves_sameOrigin (env : SWEnv) (cs : Caches)
    (k : String) (r : Response) (hinv : sameOriginCaches env cs)
    (hk : isSameOrigin env k = true) :
    sameOriginCaches env (cachePutSafe cs k r) := by
  intro kv hkv e he
  unfold cachePutSafe cachesSetPut at hkv
  rcases List.mem_map.1 hkv with ⟨kv0, hkv0, heq⟩
  rcases mem_cachesOpen cs CACHE_NAME kv0 hkv0 with hin | hnew
  · by_cases hb : (kv0.1 == CACHE_NAME) = true
    · rw [if_pos hb] at heq
      rw [← heq] at he
      rcases mem_storePut kv0.2 k r e he with h1 | h1
      · rw [h1]
        exact hk
      · exact hinv kv0 hin e h1
    · rw [if_neg hb] at heq
      rw [← heq] at he
      exact hinv kv0 hin e he
  · subst hnew
    rw [if_pos (by simp)] at heq
    rw [← heq] at he
    rcases mem_storePut ([] : CacheStore) k r e he with h1 | h1
    · rw [h1]
      exact hk
    · exact absurd h1 (List.not_mem_nil e)

/-! Induction lemma for the best-effort precache: a locator whose fetch
succeeds with an ok response ends up stored, whatever happens to the
other locators. -/

theorem precache_keeps (env : SWEnv) (urls : List String) :
    ∀ (c : CacheStore) (u : String) (r : Response),
      env.net u = Except.ok r → r.ok = true →
      (u ∈ urls ∨ storeMatch c u = some r) →
      storeMatch (precacheBestEffort env c urls) u = some r := by
  induction urls with
  | nil =>
    intro c u r _ _ h
    rcases h with h | h
    · exact absurd h (List.not_mem_nil u)
    · exact h
  | cons v rest ih =>
    intro c u r hn hok h
    show storeMatch (precacheBestEffort env (precacheStep env c v) rest) u =
      some r
    apply ih (precacheStep env c v) u r hn hok
    by_cases hur : u ∈ rest
    · exact Or.inl hur
    · right
      by_cases huv : u = v
      · subst huv
        simp [precacheStep, hn, hok, storeMatch_storePut_self]
      · have hpres : storeMatch (precacheStep env c v) u = storeMatch c u := by
          unfold precacheStep
          cases hnv : env.net v with
          | ok rv =>
            by_cases hrv : rv.ok = true
            · simp [hrv, storeMatch_storePut_ne c v u rv huv]
            · simp [hrv]
          | error e => rfl
        rcases h with h | h
        · rcases List.mem_cons.1 h with h1 | h1
          · exact absurd h1 huv
          · exact absurd h1 hur
        · rw [hpres]
          exact h

/-! Membership lemma for the activate listener. -/

theorem mem_cachesDelete (cs : Caches) (n : String) (kv : String × CacheStore) :
    kv ∈ cachesDelete cs n ↔ kv ∈ cs ∧ kv.1 ≠ n := by
  unfold cachesDelete
  rw [List.mem_filter]
  constructor
  · rintro ⟨h1, h2⟩
    exact ⟨h1, bne_iff_ne.1 h2⟩
  · rintro ⟨h1, h2⟩
    exact ⟨h1, bne_iff_ne.2 h2⟩

theorem mem_foldl_activateStep (ks : List String) (acc : Caches)
    (kv : String × CacheStore) :
    kv ∈ ks.foldl activateStep acc ↔
      kv ∈ acc ∧ ∀ k ∈ ks, k ≠ CACHE_NAME → kv.1 ≠ k := by
  induction ks generalizing acc with
  | nil => simp
  | cons k ks ih =>
    rw [List.foldl_cons, ih]
    by_cases hk : k = CACHE_NAME
    · have hstep : activateStep acc k = acc := by
        simp [activateStep, hk]
      rw [hstep]
      subst hk
      simp [List.forall_mem_cons]
    · have hstep : activateStep acc k = cachesDelete acc k := by
        have hb : (k == CACHE_NAME) = false := beq_eq_false_iff_ne.2 hk
        simp [activateStep, hb]
      rw [hstep, mem_cachesDelete]
      simp only [List.forall_mem_cons]
      constructor
      · rintro ⟨⟨h1, h2⟩, h3⟩
        exact ⟨h1, fun _ => h2, h3⟩
      · rintro ⟨h1, h2, h3⟩
        exact ⟨⟨h1, h2 hk⟩, h3⟩

/-! Claim theorems. -/

/-- Claim C1, amended: during an install phase implemented with
precacheBestEffort (src/sw.js and src/unnamed/part_001), the failure of a
single locator v (rejected fetch or non-2xx response) does not prevent a
locator u whose fetch succeeds with an ok response from being stored, and
does not prevent the install phase from completing and signaling
readiness. The claim as stated is false for the src/unnamed/part_000
variant, whose install uses the atomic Cache.addAll. -/
theorem precache_best_effort_isolates_failures (env : SWEnv) (c : CacheStore)
    (cs : Caches) (urls : List String) (u v : String) (r : Response)
    (hu : u ∈ urls) (hn : env.net u = Except.ok r) (hok : r.ok = true)
    (hv : v ∈ urls) (hfail : fetchFails env v = true) :
    storeMatch (precacheBestEffort env c urls) u = some r ∧
      (installSW env cs).isOk = true :=
  ⟨precache_keeps env urls c u r hn hok (Or.inl hu), rfl⟩

/-- Claim C1, counterexample to the claim as stated: in the
src/unnamed/part_000 install listener, with a network where exactly the
top image locator answers 404 and every other manifest locator succeeds,
the install phase fails: readiness is never signaled and, addAll being
atomic, none of the other locators is stored. -/
theorem part000_addAll_install_aborts :
    fetchOkAt envP000 ("./assets/top.jpg") = false ∧
    (ASSETS_P000.filter (fun u => u != "./assets/top.jpg")).all
      (fetchOkAt envP000) = true ∧
    (installP000 envP000 []).isOk = false :=
  ⟨rfl, rfl, rfl⟩

/-- Claim C1, witness: with the home.css locator failing, the index.html
locator is still precached and the install phase of src/sw.js completes. -/
theorem precache_best_effort_isolates_failures_witness :
    storeMatch (precacheBestEffort envMix [] ASSETS) ("./index.html") =
      some (Response.mk 200 ("./index.html")) ∧
      (installSW envMix []).isOk = true :=
  precache_best_effort_isolates_failures envMix [] [] ASSETS
    ("./index.html") ("./home.css") (Response.mk 200 ("./index.html"))
    (by decide) rfl rfl (by decide) rfl

/-- Claim C2: after the activate listener runs, exactly the stores whose
name equals the current generation identifier remain: an entry survives
activation if and only if it was present before and bears the name
CACHE_NAME; every store with a different name has been deleted. -/
theorem activate_keeps_exactly_current_generation (cs : Caches)
    (kv : String × CacheStore) :
    kv ∈ activateSW cs ↔ kv ∈ cs ∧ kv.1 = CACHE_NAME := by
  unfold activateSW
  rw [mem_foldl_activateStep]
  constructor
  · rintro ⟨hm, hall⟩
    refine ⟨hm, ?_⟩
    by_contra hne
    have hkey : kv.1 ∈ cachesKeys cs := by
      unfold cachesKeys
      exact List.mem_map.2 ⟨kv, hm, rfl⟩
    exact hall kv.1 hkey hne rfl
  · rintro ⟨hm, heq⟩
    refine ⟨hm, fun k _ hkne => ?_⟩
    rw [heq]
    exact fun hc => hkne hc.symm

/-- Claim C2, witness: the spec scenario where an old generation store
exists next to the current one: the current store survives activation. -/
theorem activate_keeps_exactly_current_generation_witness :
    (CACHE_NAME, ([] : CacheStore)) ∈
      activateSW [(CACHE_NAME, ([] : CacheStore)), ("hk-dojo-old", [])] :=
  (activate_keeps_exactly_current_generation
    [(CACHE_NAME, ([] : CacheStore)), ("hk-dojo-old", [])]
    (CACHE_NAME, ([] : CacheStore))).mpr ⟨List.mem_cons_self _ _, rfl⟩

/-- Claim C3, amended: for a same-origin static-asset GET request with no
cache entry, the manager performs a live fetch, stores the response and
returns it on success; when the live fetch fails, the failure propagates
to the caller as-is: the src/sw.js cache-miss branch does not consult the
cached root page (that fallback exists only in the src/unnamed/part_001
variant). -/
theorem static_cache_miss_fetch_store_or_propagate (env : SWEnv) (cs : Caches)
    (req : Request)
    (hm : req.method = "GET") (hnav : (req.mode == "navigate") = false)
    (hhub : isCardsHubJsonOrCsv env req.url = false)
    (hso : isSameOrigin env req.url = true)
    (hmiss : cachesMatch cs req.url = none) :
    (∀ res, env.net req.url = Except.ok res →
      handleFetch env cs req =
        (cachePutSafe cs req.url res,
          RouteResult.responded (Except.ok res))) ∧
    (∀ e, env.net req.url = Except.error e →
      handleFetch env cs req = (cs, RouteResult.responded (Except.error e))) :=
  ⟨fun res hn => hf_miss_ok env cs req res hm hnav hhub hso hmiss hn,
   fun e hn => hf_miss_err env cs req e hm hnav hhub hso hmiss hn⟩

/-- Claim C3, counterexample to the claim as stated: a same-origin static
GET request with no cache entry for its URL, a failing network, and the
root page present in the cache: the listener responds with the propagated
error, not with the cached root page. -/
theorem static_cache_miss_no_root_fallback :
    cachesMatch csIdx ("./index.html") = some rIndex ∧
    handleFetch envDown csIdx reqA =
      (csIdx, RouteResult.responded (Except.error errDown)) :=
  ⟨rfl, rfl⟩

/-- Claim C3, witness: the failure of the live fetch on a cache miss
propagates. -/
theorem static_cache_miss_fetch_store_or_propagate_witness :
    handleFetch envDown csIdx reqA =
      (csIdx, RouteResult.responded (Except.error errDown)) :=
  (static_cache_miss_fetch_store_or_propagate envDown csIdx reqA rfl rfl rfl
    rfl rfl).2 errDown rfl

/-- Claim C4, amended: a routed request resolved through a network-first
path or the cache-miss path whose live fetch resolves with a non-2xx
response returns that response to the caller as-is, and, the request
being a same-origin GET, the response is also stored in the cache: the
cachePutSafe of src/sw.js does not filter by response status (only the
src/unnamed/part_001 variant skips non-ok responses). -/
theorem non2xx_returned_and_stored (env : SWEnv) (cs : Caches) (req : Request)
    (res : Response)
    (hm : req.method = "GET")
    (hso : isSameOrigin env req.url = true)
    (hnet : env.net req.url = Except.ok res)
    (hnotok : res.ok = false)
    (hroute : req.mode = "navigate" ∨
      ((req.mode == "navigate") = false ∧
        isCardsHubJsonOrCsv env req.url = true) ∨
      ((req.mode == "navigate") = false ∧
        isCardsHubJsonOrCsv env req.url = false ∧
        cachesMatch cs req.url = none)) :
    handleFetch env cs req =
      (cachePutSafe cs req.url res, RouteResult.responded (Except.ok res)) ∧
    storeMatch (cachesGet (handleFetch env cs req).1 CACHE_NAME) req.url =
      some res := by
  have hg : (req.method == "GET" && isSameOrigin env req.url) = true := by
    rw [hm, hso]
    rfl
  have h1 : handleFetch env cs req =
      (cachePutSafe cs req.url res, RouteResult.responded (Except.ok res)) := by
    rcases hroute with hnav | ⟨hnav, hhub⟩ | ⟨hnav, hhub, hmiss⟩
    · rw [hf_nav env cs req hm hnav,
        nf_ok_put env cs req (some ("./index.html")) res hnet hg]
      rfl
    · rw [hf_hub env cs req hm hnav hhub,
        nf_ok_put env cs req none res hnet hg]
      rfl
    · exact hf_miss_ok env cs req res hm hnav hhub hso hmiss hnet
  refine ⟨h1, ?_⟩
  rw [h1]
  show storeMatch (cachesGet (cachePutSafe cs req.url res) CACHE_NAME)
    req.url = some res
  rw [cachesGet_cachePutSafe]
  exact storeMatch_storePut_self _ _ _

/-- Claim C4, counterexample to the claim as stated: a navigation request
whose live fetch resolves with a 404 response: the response is returned
as-is, as the claim says, but it is also stored in the cache under the
request URL, refuting the not-stored half of the claim. -/
theorem non2xx_response_is_stored :
    r404.ok = false ∧
    handleFetch env404 [] reqNav =
      ([(CACHE_NAME, [(uNav, r404)])],
        RouteResult.responded (Except.ok r404)) :=
  ⟨rfl, rfl⟩

/-- Claim C4, witness: the 404 navigation response is returned and lands
in the current store. -/
theorem non2xx_returned_and_stored_witness :
    handleFetch env404 [] reqNav =
      (cachePutSafe [] uNav r404, RouteResult.responded (Except.ok r404)) ∧
    storeMatch (cachesGet (handleFetch env404 [] reqNav).1 CACHE_NAME) uNav =
      some r404 :=
  non2xx_returned_and_stored env404 [] reqNav r404 rfl rfl rfl rfl (Or.inl rfl)

/-- Claim C5: for every navigation GET request whose live fetch succeeds,
the response returned to the caller is the live network response, whatever
the cache holds: the storage argument cs is arbitrary and may contain a
cached entry for the request. -/
theorem navigation_prefers_live_response (env : SWEnv) (cs : Caches)
    (req : Request) (res : Response)
    (hm : req.method = "GET") (hnav : req.mode = "navigate")
    (hnet : env.net req.url = Except.ok res) :
    (handleFetch env cs req).2 = RouteResult.responded (Except.ok res) := by
  rw [hf_nav env cs req hm hnav]
  cases hg : (req.method == "GET" && isSameOrigin env req.url) with
  | true =>
    rw [nf_ok_put env cs req (some ("./index.html")) res hnet hg]
    rfl
  | false =>
    rw [nf_ok_noput env cs req (some ("./index.html")) res hnet hg]
    rfl

/-- Claim C5, witness: a cached entry exists for the exact navigation URL,
the network is reachable, and the live response is returned, not the
cached one. -/
theorem navigation_prefers_live_response_witness :
    cachesMatch csNav uNav = some rCached ∧
    (handleFetch envOk csNav reqNav).2 =
      RouteResult.responded (Except.ok rLive) :=
  ⟨rfl, navigation_prefers_live_response envOk csNav reqNav rLive rfl rfl rfl⟩

/-- Claim C6: for every navigation GET request whose live fetch fails, the
manager returns the cached response for the exact request when present,
else the cached root page when present, and otherwise the original failure
propagates to the caller. -/
theorem navigation_failure_fallback_chain (env : SWEnv) (cs : Caches)
    (req : Request) (e : String)
    (hm : req.method = "GET") (hnav : req.mode = "navigate")
    (hnet : env.net req.url = Except.error e) :
    (∀ c, cachesMatch cs req.url = some c →
      (handleFetch env cs req).2 = RouteResult.responded (Except.ok c)) ∧
    (∀ fb, cachesMatch cs req.url = none →
      cachesMatch cs ("./index.html") = some fb →
      (handleFetch env cs req).2 = RouteResult.responded (Except.ok fb)) ∧
    (cachesMatch cs req.url = none →
      cachesMatch cs ("./index.html") = none →
      (handleFetch env cs req).2 = RouteResult.responded (Except.error e)) := by
  refine ⟨?_, ?_, ?_⟩
  · intro c hc
    rw [hf_nav env cs req hm hnav, nf_err_hit env cs req _ e c hnet hc]
    rfl
  · intro fb hc hf
    rw [hf_nav env cs req hm hnav,
      nf_err_fb env cs req ("./index.html") e fb hnet hc hf]
    rfl
  · intro hc hf
    rw [hf_nav env cs req hm hnav,
      nf_err_propagate env cs req ("./index.html") e hnet hc hf]
    rfl

/-- Claim C6, witness: the network is down, the exact navigation URL is
not cached, the root page is cached, and the cached root page is
returned. -/
theorem navigation_failure_fallback_chain_witness :
    (handleFetch envDown csIdx reqNav).2 =
      RouteResult.responded (Except.ok rIndex) :=
  (navigation_failure_fallback_chain envDown csIdx reqNav errDown rfl rfl
    rfl).2.1 rIndex rfl rfl

/-- Claim C7: for every same-origin static-asset GET request with a cache
entry, the response returned to the caller is that cached entry, for every
network oracle: the second conjunct swaps the network component of the
environment arbitrarily and the returned response is unchanged, so the
response does not depend on the outcome of the concurrent revalidation
fetch. -/
theorem static_cache_hit_returns_cached_immediately (env : SWEnv)
    (cs : Caches) (req : Request) (cached : Response)
    (hm : req.method = "GET") (hnav : (req.mode == "navigate") = false)
    (hhub : isCardsHubJsonOrCsv env req.url = false)
    (hso : isSameOrigin env req.url = true)
    (hhit : cachesMatch cs req.url = some cached) :
    (handleFetch env cs req).2 = RouteResult.responded (Except.ok cached) ∧
    ∀ net2 : String → Except String Response,
      (handleFetch ⟨env.selfOrigin, env.parseURL, net2⟩ cs req).2 =
        RouteResult.responded (Except.ok cached) := by
  have key : ∀ env2 : SWEnv, isCardsHubJsonOrCsv env2 req.url = false →
      isSameOrigin env2 req.url = true →
      (handleFetch env2 cs req).2 = RouteResult.responded (Except.ok cached) := by
    intro env2 hhub2 hso2
    cases hn : env2.net req.url with
    | ok res =>
      rw [hf_hit_ok env2 cs req cached res hm hnav hhub2 hso2 hhit hn]
    | error e2 =>
      rw [hf_hit_err env2 cs req cached e2 hm hnav hhub2 hso2 hhit hn]
  exact ⟨key env hhub hso,
    fun net2 => key ⟨env.selfOrigin, env.parseURL, net2⟩ hhub hso⟩

/-- Claim C7, witness: with the network down the cached entry is returned,
and with the network swapped to a reachable one the same cached entry is
still returned. -/
theorem static_cache_hit_returns_cached_immediately_witness :
    (handleFetch envDown csA reqA).2 =
      RouteResult.responded (Except.ok rCached) ∧
    (handleFetch ⟨envDown.selfOrigin, envDown.parseURL, envOk.net⟩ csA
        reqA).2 = RouteResult.responded (Except.ok rCached) := by
  have h := static_cache_hit_returns_cached_immediately envDown csA reqA
    rCached rfl rfl rfl rfl rfl
  exact ⟨h.1, h.2 envOk.net⟩

/-- Claim C8: for every same-origin static-asset GET request hitting the
cache in the post-activation single-store state, a background revalidation
fetch is issued and, when it resolves, the store entry for the request is
overwritten with the new response while the old cached response is
returned; a subsequent request for the same resource, under any network,
returns the updated content. -/
theorem static_cache_hit_background_revalidates (env : SWEnv)
    (s : CacheStore) (req : Request) (cached res : Response)
    (hm : req.method = "GET") (hnav : (req.mode == "navigate") = false)
    (hhub : isCardsHubJsonOrCsv env req.url = false)
    (hso : isSameOrigin env req.url = true)
    (hhit : storeMatch s req.url = some cached)
    (hnet : env.net req.url = Except.ok res) :
    handleFetch env [(CACHE_NAME, s)] req =
      ([(CACHE_NAME, storePut s req.url res)],
        RouteResult.responded (Except.ok cached)) ∧
    ∀ net2 : String → Except String Response,
      (handleFetch ⟨env.selfOrigin, env.parseURL, net2⟩
          [(CACHE_NAME, storePut s req.url res)] req).2 =
        RouteResult.responded (Except.ok res) := by
  have hhit1 : cachesMatch [(CACHE_NAME, s)] req.url = some cached := by
    rw [cachesMatch_single]
    exact hhit
  refine ⟨?_, ?_⟩
  · rw [hf_hit_ok env [(CACHE_NAME, s)] req cached res hm hnav hhub hso hhit1
      hnet, cachePutSafe_single]
  · intro net2
    have hhit2 : cachesMatch [(CACHE_NAME, storePut s req.url res)] req.url =
        some res := by
      rw [cachesMatch_single, storeMatch_storePut_self]
    cases hn2 : net2 req.url with
    | ok r2 =>
      rw [hf_hit_ok ⟨env.selfOrigin, env.parseURL, net2⟩ _ req res r2 hm hnav
        hhub hso hhit2 hn2]
    | error e2 =>
      rw [hf_hit_err ⟨env.selfOrigin, env.parseURL, net2⟩ _ req res e2 hm hnav
        hhub hso hhit2 hn2]

/-- Claim C8, witness: a cache hit revalidates the entry of uA from
rCached to rNew, and the next request for uA answers rNew even with the
network down. -/
theorem static_cache_hit_background_revalidates_witness :
    handleFetch envNew [(CACHE_NAME, [(uA, rCached)])] reqA =
      ([(CACHE_NAME, storePut [(uA, rCached)] uA rNew)],
        RouteResult.responded (Except.ok rCached)) ∧
    (handleFetch ⟨envNew.selfOrigin, envNew.parseURL, envDown.net⟩
        [(CACHE_NAME, storePut [(uA, rCached)] uA rNew)] reqA).2 =
      RouteResult.responded (Except.ok rNew) := by
  have h := static_cache_hit_background_revalidates envNew [(uA, rCached)]
    reqA rCached rNew rfl rfl rfl rfl rfl rfl
  exact ⟨h.1, h.2 envDown.net⟩

/-- Claim C9: a request whose URL is not same-origin never adds an entry
to the cache storage, the routing operation leaves the storage unchanged;
moreover every routing operation preserves the invariant that the storage
holds only same-origin keyed entries. -/
theorem cross_origin_never_cached (env : SWEnv) (cs : Caches)
    (req : Request) :
    (isSameOrigin env req.url = false → (handleFetch env cs req).1 = cs) ∧
    (sameOriginCaches env cs →
      sameOriginCaches env (handleFetch env cs req).1) := by
  constructor
  · intro hso
    rcases handleFetch_caches env cs req with h | ⟨ht, _⟩
    · exact h
    · rw [hso] at ht
      exact absurd ht (by simp)
  · intro hinv
    rcases handleFetch_caches env cs req with h | ⟨ht, res, heq⟩
    · rw [h]
      exact hinv
    · rw [heq]
      exact cachePutSafe_preserves_sameOrigin env cs req.url res hinv ht

/-- Claim C9, witness: a cross-origin GET request with a reachable network
leaves the storage unchanged. -/
theorem cross_origin_never_cached_witness :
    (handleFetch envOk csA reqX).1 = csA :=
  (cross_origin_never_cached envOk csA reqX).1 rfl

/-- Claim C10, amended: for every GET request whose URL string cannot be
parsed, both classification predicates return false (the parse error is
caught); every such non-navigation request is passed through with no
substituted response and no cache write; a navigation request with an
unparseable URL is still routed network-first by its mode, as the
counterexample shows, but it too incurs no cache write. -/
theorem unparseable_url_classification (env : SWEnv) (cs : Caches)
    (req : Request)
    (hp : env.parseURL req.url = none) (hm : req.method = "GET") :
    isSameOrigin env req.url = false ∧
    isCardsHubJsonOrCsv env req.url = false ∧
    ((req.mode == "navigate") = false →
      handleFetch env cs req = (cs, RouteResult.passThrough)) ∧
    (handleFetch env cs req).1 = cs := by
  have hso : isSameOrigin env req.url = false := by
    simp [isSameOrigin, hp]
  have hhub : isCardsHubJsonOrCsv env req.url = false := by
    simp [isCardsHubJsonOrCsv, hp]
  refine ⟨hso, hhub, ?_, ?_⟩
  · intro hnav
    exact hf_pass env cs req hm hnav hhub hso
  · rcases handleFetch_caches env cs req with h | ⟨ht, _⟩
    · exact h
    · rw [hso] at ht
      exact absurd ht (by simp)

/-- Claim C10, counterexample to the claim as stated: a navigation GET
request whose URL string the URL constructor rejects is not passed
through: the listener substitutes the network-first response, because the
navigation branch dispatches on the request mode before any URL
classification runs. -/
theorem unparseable_navigation_is_intercepted :
    tParse uBad = none ∧
    handleFetch envOk [] reqBadNav =
      ([], RouteResult.responded (Except.ok rLive)) :=
  ⟨rfl, rfl⟩

/-- Claim C10, witness: a non-navigation GET request with an unparseable
URL is classified by both predicates as false and passes through with the
storage unchanged. -/
theorem unparseable_url_classification_witness :
    isSameOrigin envOk uBad = false ∧
    isCardsHubJsonOrCsv envOk uBad = false ∧
    handleFetch envOk csIdx reqBad = (csIdx, RouteResult.passThrough) := by
  have h := unparseable_url_classification envOk csIdx reqBad rfl rfl
  exact ⟨h.1, h.2.1, h.2.2.1 rfl⟩

end LobbySW
